import Mathlib

/-!
Shallow embedding of `src/app.py`, a Streamlit + SQLite CRUD application
over a single `users` table.  The database state is a list of rows plus
the AUTOINCREMENT counter; each store function of the Python file is
embedded as a pure state transformer, and the `try/except` wrapper of
every store function is embedded by an explicit `raises` flag telling
whether the SQL statement raises an exception.  The wrapped operations
also record whether `conn.close()` was reached, so that the resource
handling of each exit path can be stated.
-/

/-- Data model of one row of the `users` table (`CREATE TABLE` in
`init_database`, src/app.py lines 25-34): `id INTEGER PRIMARY KEY
AUTOINCREMENT`, `name/email/phone TEXT NOT NULL`, `age INTEGER`,
`date_created TIMESTAMP DEFAULT CURRENT_TIMESTAMP`.  The
`date_created` column has no NOT NULL constraint, so it is embedded as
an `Option String` (`none` models SQL NULL); the inserts of the
application never supply it, so it is filled by the default. -/
structure UserRecord where
  id : Nat
  name : String
  email : String
  phone : String
  age : Int
  date_created : Option String
deriving DecidableEq, Repr

/-- Database state: the rows of the `users` table in insertion order,
and the AUTOINCREMENT counter (the id the next INSERT will receive;
SQLite AUTOINCREMENT never reuses ids of deleted rows). -/
structure DB where
  rows : List UserRecord
  nextId : Nat
deriving DecidableEq, Repr

/-- Well-formedness invariant of the store: every row id is below the
AUTOINCREMENT counter, and row ids are pairwise distinct (both hold for
an `INTEGER PRIMARY KEY AUTOINCREMENT` column). -/
def DB.WF (db : DB) : Prop :=
  (∀ r ∈ db.rows, r.id < db.nextId) ∧
    db.rows.Pairwise (fun a b => a.id ≠ b.id)

/-- Embedding of `init_database` (src/app.py lines 16-37): creates the
table if absent; a fresh database file holds the empty table and SQLite
assigns 1 as the first AUTOINCREMENT id. -/
def init_database : DB := ⟨[], 1⟩

/-- Result of one wrapped store operation: the database state after the
operation, the value returned to the caller, and whether the
`conn.close()` call of the operation was reached on the taken path. -/
structure OpResult (α : Type) where
  db : DB
  result : α
  connReleased : Bool
deriving Repr

/-- State change of the INSERT statement of `insert_user` (src/app.py
lines 68-71): appends a row with the fresh AUTOINCREMENT id and the
current timestamp filled in by the column default. -/
def insertApply (db : DB) (name email phone : String) (age : Int)
    (now : String) : DB :=
  ⟨db.rows ++ [⟨db.nextId, name, email, phone, age, some now⟩], db.nextId + 1⟩

/-- Embedding of `insert_user` (src/app.py lines 51-78).  On the
non-raising path the statement is executed, `conn.close()` is reached
and `True` is returned; if the statement raises, the `except` block
returns `False` without closing the connection. -/
def insert_user (db : DB) (name email phone : String) (age : Int)
    (now : String) (raises : Bool) : OpResult Bool :=
  if raises then ⟨db, false, false⟩
  else ⟨insertApply db name email phone age now, true, true⟩

/-- Ordering used by `ORDER BY id DESC`: insertion of one row into a
list sorted by id descending. -/
def insertDesc (r : UserRecord) : List UserRecord → List UserRecord
  | [] => [r]
  | x :: xs => if r.id ≥ x.id then r :: x :: xs else x :: insertDesc r xs

/-- Embedding of `SELECT ... ORDER BY id DESC`: sorts the rows by id
descending (insertion sort). -/
def sortByIdDesc (rows : List UserRecord) : List UserRecord :=
  rows.foldr insertDesc []

/-- Embedding of `view_all_users` (src/app.py lines 84-99): returns all
rows ordered by id descending; on a raised exception the `except` block
returns an empty DataFrame without closing the connection. -/
def view_all_users (db : DB) (raises : Bool) : OpResult (List UserRecord) :=
  if raises then ⟨db, [], false⟩
  else ⟨db, sortByIdDesc db.rows, true⟩

/-- Embedding of `get_user_by_id` (src/app.py lines 101-120):
`SELECT * FROM users WHERE id = ?` with `fetchone()`; a missing id
yields `None` on the normal path, and the `except` block also returns
`None` (without closing the connection). -/
def get_user_by_id (db : DB) (user_id : Nat) (raises : Bool) :
    OpResult (Option UserRecord) :=
  if raises then ⟨db, none, false⟩
  else ⟨db, db.rows.find? (fun r => r.id = user_id), true⟩

/-- Embedding of `get_user_ids` (src/app.py lines 122-138):
`SELECT id, name FROM users ORDER BY id DESC`, returned as (id, name)
pairs; the `except` block returns the empty list. -/
def get_user_ids (db : DB) (raises : Bool) : OpResult (List (Nat × String)) :=
  if raises then ⟨db, [], false⟩
  else ⟨db, (sortByIdDesc db.rows).map (fun r => (r.id, r.name)), true⟩

/-- State change of the UPDATE statement of `update_user` (src/app.py
lines 162-166): every row whose id matches has its four mutable fields
replaced; `id` and `date_created` are not in the SET list. -/
def updateApply (db : DB) (user_id : Nat) (name email phone : String)
    (age : Int) : DB :=
  ⟨db.rows.map (fun r =>
      if r.id = user_id then
        ⟨r.id, name, email, phone, age, r.date_created⟩
      else r),
    db.nextId⟩

/-- Embedding of `update_user` (src/app.py lines 144-173): executes the
UPDATE and returns `True` whether or not any row matched; the `except`
block returns `False` without closing the connection. -/
def update_user (db : DB) (user_id : Nat) (name email phone : String)
    (age : Int) (raises : Bool) : OpResult Bool :=
  if raises then ⟨db, false, false⟩
  else ⟨updateApply db user_id name email phone age, true, true⟩

/-- State change of the DELETE statement of `delete_user` (src/app.py
line 192): removes every row whose id matches. -/
def deleteApply (db : DB) (user_id : Nat) : DB :=
  ⟨db.rows.filter (fun r => ¬(r.id = user_id)), db.nextId⟩

/-- Embedding of `delete_user` (src/app.py lines 179-198): executes the
DELETE and returns `True` whether or not any row matched; the `except`
block returns `False` without closing the connection. -/
def delete_user (db : DB) (user_id : Nat) (raises : Bool) : OpResult Bool :=
  if raises then ⟨db, false, false⟩
  else ⟨deleteApply db user_id, true, true⟩

/-- Outcome of submitting one of the two entry forms: either a
validation error is shown and no store function is called, or the store
operation is invoked. -/
inductive FormOutcome where
  | validationError
  | storeInvoked
deriving DecidableEq, Repr

/-- Embedding of the validation of the add-user form (src/app.py lines
228-236): `if not name or not email or not phone` shows an error;
`elif "@" not in email` shows an error; otherwise `insert_user` is
called.  Python `not s` on a string tests `s == ""`, and for the
one-character needle the substring test `"@" in email` is membership of
the character in the string. -/
def add_user_form_outcome (name email phone : String) : FormOutcome :=
  if name = "" ∨ email = "" ∨ phone = "" then .validationError
  else if '@' ∉ email.data then .validationError
  else .storeInvoked

/-- Embedding of the validation of the update-user form (src/app.py
lines 309-317), identical in logic to the add-user form. -/
def update_user_form_outcome (name email phone : String) : FormOutcome :=
  if name = "" ∨ email = "" ∨ phone = "" then .validationError
  else if '@' ∉ email.data then .validationError
  else .storeInvoked

/-- Whitespace-trimming of a string on both ends (Python `str.strip`),
written over the character list so it evaluates by `decide`. -/
def pyStrip (s : String) : String :=
  ⟨((s.data.dropWhile Char.isWhitespace).reverse.dropWhile
      Char.isWhitespace).reverse⟩

/-- Validation-failure predicate in the words of the specification: a
field is empty after trimming whitespace, or the email lacks an "@".
Kept separate from the embedded form handlers so the two can be
compared. -/
def spec_rejects (name email phone : String) : Prop :=
  pyStrip name = "" ∨ pyStrip email = "" ∨ pyStrip phone = "" ∨
    '@' ∉ email.data

instance (name email phone : String) :
    Decidable (spec_rejects name email phone) := by
  unfold spec_rejects; infer_instance

/-- Minimal-quoting CSV field escape as performed by pandas
`DataFrame.to_csv`: a field containing a comma, quote or newline is
wrapped in quotes with inner quotes doubled. -/
def csvEscape (s : String) : String :=
  if ',' ∈ s.data ∨ '"' ∈ s.data ∨ '\n' ∈ s.data then
    "\"" ++ ⟨s.data.foldr
        (fun c acc => if c = '"' then '"' :: '"' :: acc else c :: acc)
        []⟩ ++ "\""
  else s

/-- Header line written by `to_csv` for the DataFrame of
`view_all_users`: the SELECT column order `id,name,email,phone,age,
date_created`. -/
def csv_header : String := "id,name,email,phone,age,date_created"

/-- One CSV data line for one row, fields in the SELECT column order. -/
def record_to_csv_row (r : UserRecord) : String :=
  toString r.id ++ "," ++ csvEscape r.name ++ "," ++ csvEscape r.email ++
    "," ++ csvEscape r.phone ++ "," ++ toString r.age ++ "," ++
    csvEscape (r.date_created.getD "")

/-- Lines of the CSV produced by `df.to_csv(index=False)` on the
DataFrame returned by `view_all_users`: one header line followed by one
line per row, rows ordered by id descending. -/
def csv_lines (db : DB) : List String :=
  csv_header :: (sortByIdDesc db.rows).map record_to_csv_row

/-- Embedding of the Export-to-CSV button handler (src/app.py lines
369-381): fetches all users; if the DataFrame is non-empty a CSV
download is offered, otherwise only an informational message is shown
and no CSV is produced (`none`). -/
def export_to_csv (db : DB) (raises : Bool) : Option (List String) :=
  let df := (view_all_users db raises).result
  if df.isEmpty then none
  else some (csv_header :: df.map record_to_csv_row)

/-! Helper lemmas about the embedded operations. -/

lemma insertDesc_length (r : UserRecord) (l : List UserRecord) :
    (insertDesc r l).length = l.length + 1 := by
  induction l with
  | nil => rfl
  | cons x xs ih =>
    unfold insertDesc
    split
    · rfl
    · simp [List.length_cons, ih]

lemma sortByIdDesc_length (l : List UserRecord) :
    (sortByIdDesc l).length = l.length := by
  unfold sortByIdDesc
  induction l with
  | nil => rfl
  | cons x xs ih =>
    simp only [List.foldr_cons, insertDesc_length, ih, List.length_cons]

lemma mem_insertDesc {y r : UserRecord} {l : List UserRecord} :
    y ∈ insertDesc r l ↔ y = r ∨ y ∈ l := by
  induction l with
  | nil => simp [insertDesc]
  | cons x xs ih =>
    unfold insertDesc
    by_cases hc : r.id ≥ x.id
    · rw [if_pos hc]
      simp [List.mem_cons]
    · rw [if_neg hc]
      simp only [List.mem_cons, ih]
      tauto

lemma insertDesc_pairwise (r : UserRecord) (l : List UserRecord)
    (h : l.Pairwise (fun a b => b.id ≤ a.id)) :
    (insertDesc r l).Pairwise (fun a b => b.id ≤ a.id) := by
  induction l with
  | nil => simp [insertDesc]
  | cons x xs ih =>
    rcases List.pairwise_cons.mp h with ⟨hx, hxs⟩
    unfold insertDesc
    by_cases hc : r.id ≥ x.id
    · rw [if_pos hc]
      refine List.pairwise_cons.mpr ⟨?_, h⟩
      intro y hy
      rcases List.mem_cons.mp hy with hy | hy
      · subst hy; exact hc
      · exact le_trans (hx y hy) hc
    · rw [if_neg hc]
      refine List.pairwise_cons.mpr ⟨?_, ih hxs⟩
      intro y hy
      rcases mem_insertDesc.mp hy with hy | hy
      · subst hy; omega
      · exact hx y hy

lemma sortByIdDesc_pairwise (l : List UserRecord) :
    (sortByIdDesc l).Pairwise (fun a b => b.id ≤ a.id) := by
  unfold sortByIdDesc
  induction l with
  | nil => exact List.Pairwise.nil
  | cons x xs ih => exact insertDesc_pairwise x _ ih

lemma insertDesc_cons_of_lt (x newr : UserRecord) (rest : List UserRecord)
    (h : x.id < newr.id) :
    insertDesc x (newr :: rest) = newr :: insertDesc x rest := by
  rw [show insertDesc x (newr :: rest) =
      if x.id ≥ newr.id then x :: newr :: rest else newr :: insertDesc x rest
    from rfl]
  rw [if_neg (by omega)]

lemma foldr_insertDesc_head (newr : UserRecord) (l rest : List UserRecord)
    (h : ∀ x ∈ l, x.id < newr.id) :
    ∃ rest2, l.foldr insertDesc (newr :: rest) = newr :: rest2 := by
  induction l with
  | nil => exact ⟨rest, rfl⟩
  | cons x xs ih =>
    obtain ⟨r2, hr2⟩ := ih (fun y hy => h y (List.mem_cons_of_mem _ hy))
    refine ⟨insertDesc x r2, ?_⟩
    rw [List.foldr_cons, hr2]
    exact insertDesc_cons_of_lt x newr r2 (h x (List.mem_cons_self x xs))

lemma sortByIdDesc_append_singleton_head (l : List UserRecord)
    (newr : UserRecord) (h : ∀ x ∈ l, x.id < newr.id) :
    (sortByIdDesc (l ++ [newr])).head? = some newr := by
  unfold sortByIdDesc
  rw [List.foldr_append]
  obtain ⟨r2, hr2⟩ := foldr_insertDesc_head newr l [] h
  rw [show (List.foldr insertDesc [] [newr]) = [newr] from rfl, hr2]
  rfl

lemma find?_append_fresh (l : List UserRecord) (newr : UserRecord)
    (h : ∀ x ∈ l, x.id ≠ newr.id) :
    (l ++ [newr]).find? (fun r => r.id = newr.id) = some newr := by
  rw [List.find?_append]
  have h1 : l.find? (fun r => r.id = newr.id) = none :=
    List.find?_eq_none.mpr (fun x hx => by simp [h x hx])
  rw [h1]
  simp [List.find?]

lemma find?_map_id_preserving (g : UserRecord → UserRecord)
    (hg : ∀ r, (g r).id = r.id) (l : List UserRecord) (j : Nat) :
    (l.map g).find? (fun r => r.id = j) =
      (l.find? (fun r => r.id = j)).map g := by
  induction l with
  | nil => rfl
  | cons x xs ih =>
    simp only [List.map_cons, List.find?_cons, hg]
    cases hd : decide (x.id = j) with
    | true => rfl
    | false => exact ih

lemma WF_init_database : init_database.WF :=
  ⟨fun r hr => absurd hr (List.not_mem_nil r), List.Pairwise.nil⟩

lemma WF_insertApply (db : DB) (h : db.WF) (name email phone : String)
    (age : Int) (now : String) :
    (insertApply db name email phone age now).WF := by
  obtain ⟨h1, h2⟩ := h
  constructor
  · intro r hr
    rcases List.mem_append.mp hr with hr | hr
    · exact Nat.lt_succ_of_lt (h1 r hr)
    · rw [List.mem_singleton.mp hr]
      exact Nat.lt_succ_self _
  · refine List.pairwise_append.mpr ⟨h2, List.pairwise_singleton _ _, ?_⟩
    intro a ha b hb
    rw [List.mem_singleton.mp hb]
    exact Nat.ne_of_lt (h1 a ha)

lemma WF_updateApply (db : DB) (h : db.WF) (user_id : Nat)
    (name email phone : String) (age : Int) :
    (updateApply db user_id name email phone age).WF := by
  obtain ⟨h1, h2⟩ := h
  have hg : ∀ r : UserRecord,
      (if r.id = user_id then
          (⟨r.id, name, email, phone, age, r.date_created⟩ : UserRecord)
        else r).id = r.id := by
    intro r
    split <;> rfl
  constructor
  · intro r hr
    rcases List.mem_map.mp hr with ⟨x, hx, hxr⟩
    rw [← hxr, hg]
    exact h1 x hx
  · refine List.pairwise_map.mpr (h2.imp ?_)
    intro a b hab
    rw [hg, hg]
    exact hab

lemma WF_deleteApply (db : DB) (h : db.WF) (user_id : Nat) :
    (deleteApply db user_id).WF := by
  obtain ⟨h1, h2⟩ := h
  exact ⟨fun r hr => h1 r (List.mem_filter.mp hr).1,
    List.Pairwise.sublist (List.filter_sublist _) h2⟩

/-! Claim theorems. -/

/-- C1: inserting a valid record (non-empty name, email containing "@",
non-empty phone, integer age) and then calling GetByID on the id
assigned to it (the AUTOINCREMENT counter of the store at insertion
time) returns a record whose name, email, phone and age equal the
inserted values. -/
theorem insert_getById_roundtrip (db : DB) (name email phone : String)
    (age : Int) (now : String) (hWF : db.WF) (hname : name ≠ "")
    (hemail : '@' ∈ email.data) (hphone : phone ≠ "") :
    (insert_user db name email phone age now false).result = true ∧
    (get_user_by_id (insert_user db name email phone age now false).db
        db.nextId false).result =
      some ⟨db.nextId, name, email, phone, age, some now⟩ := by
  refine ⟨rfl, ?_⟩
  have e1 : (get_user_by_id (insert_user db name email phone age now false).db
        db.nextId false).result =
      (db.rows ++ ([⟨db.nextId, name, email, phone, age, some now⟩] :
          List UserRecord)).find? (fun r => r.id = db.nextId) := rfl
  rw [e1]
  exact find?_append_fresh db.rows
    ⟨db.nextId, name, email, phone, age, some now⟩
    (fun x hx => Nat.ne_of_lt (hWF.1 x hx))

/-- Witness for C1 at a concrete store and record. -/
theorem insert_getById_roundtrip_witness :
    (insert_user ⟨[], 1⟩ "Ann" "a@b.com" "555" 30 "2024-01-01" false).result
      = true ∧
    (get_user_by_id
        (insert_user ⟨[], 1⟩ "Ann" "a@b.com" "555" 30 "2024-01-01" false).db
        1 false).result =
      some ⟨1, "Ann", "a@b.com", "555", 30, some "2024-01-01"⟩ :=
  insert_getById_roundtrip ⟨[], 1⟩ "Ann" "a@b.com" "555" 30 "2024-01-01"
    WF_init_database (by decide) (by decide) (by decide)

/-- C2: for an id matching no existing record, `update_user` and
`delete_user` leave the store unchanged and still return `True`. -/
theorem update_delete_missing_id_noop (db : DB) (user_id : Nat)
    (name email phone : String) (age : Int)
    (h : ∀ r ∈ db.rows, r.id ≠ user_id) :
    (update_user db user_id name email phone age false).db = db ∧
    (update_user db user_id name email phone age false).result = true ∧
    (delete_user db user_id false).db = db ∧
    (delete_user db user_id false).result = true := by
  have hu : updateApply db user_id name email phone age = db := by
    unfold updateApply
    rw [List.map_congr_left (fun r hr => if_neg (h r hr)), List.map_id']
  have hd : deleteApply db user_id = db := by
    unfold deleteApply
    rw [List.filter_eq_self.mpr (fun r hr => by simp [h r hr])]
  exact ⟨congrArg OpResult.db (congrArg (fun d => (⟨d, true, true⟩ : OpResult Bool)) hu),
    rfl,
    congrArg OpResult.db (congrArg (fun d => (⟨d, true, true⟩ : OpResult Bool)) hd),
    rfl⟩

/-- Witness for C2 at a concrete store and missing id. -/
theorem update_delete_missing_id_noop_witness :
    (update_user ⟨[⟨1, "Ann", "a@b.com", "555", 30, some "t"⟩], 2⟩ 5
        "Bob" "b@c.org" "777" 40 false).db =
      ⟨[⟨1, "Ann", "a@b.com", "555", 30, some "t"⟩], 2⟩ ∧
    (update_user ⟨[⟨1, "Ann", "a@b.com", "555", 30, some "t"⟩], 2⟩ 5
        "Bob" "b@c.org" "777" 40 false).result = true ∧
    (delete_user ⟨[⟨1, "Ann", "a@b.com", "555", 30, some "t"⟩], 2⟩ 5
        false).db =
      ⟨[⟨1, "Ann", "a@b.com", "555", 30, some "t"⟩], 2⟩ ∧
    (delete_user ⟨[⟨1, "Ann", "a@b.com", "555", 30, some "t"⟩], 2⟩ 5
        false).result = true :=
  update_delete_missing_id_noop ⟨[⟨1, "Ann", "a@b.com", "555", 30, some "t"⟩], 2⟩
    5 "Bob" "b@c.org" "777" 40 (by decide)

/-- C4: a successful update of an existing record replaces exactly the
four mutable fields of that record, keeps its `id` and `date_created`,
and leaves the record found under every other id unchanged. -/
theorem update_frame (db : DB) (user_id : Nat) (name email phone : String)
    (age : Int) (r0 : UserRecord)
    (hfound : db.rows.find? (fun r => r.id = user_id) = some r0) :
    (update_user db user_id name email phone age false).result = true ∧
    (get_user_by_id (update_user db user_id name email phone age false).db
        user_id false).result =
      some ⟨r0.id, name, email, phone, age, r0.date_created⟩ ∧
    ∀ j, j ≠ user_id →
      (get_user_by_id (update_user db user_id name email phone age false).db
          j false).result = (get_user_by_id db j false).result := by
  have hg : ∀ r : UserRecord,
      (if r.id = user_id then
          (⟨r.id, name, email, phone, age, r.date_created⟩ : UserRecord)
        else r).id = r.id := by
    intro r
    split <;> rfl
  have hr0 : r0.id = user_id := by
    have := List.find?_some hfound
    simpa using this
  refine ⟨rfl, ?_, ?_⟩
  · have e1 : (get_user_by_id
          (update_user db user_id name email phone age false).db
          user_id false).result =
        (db.rows.map (fun r =>
            if r.id = user_id then
              (⟨r.id, name, email, phone, age, r.date_created⟩ : UserRecord)
            else r)).find? (fun r => r.id = user_id) := rfl
    rw [e1, find?_map_id_preserving _ hg, hfound]
    simp only [Option.map_some']
    rw [if_pos hr0]
  · intro j hj
    have e2 : (get_user_by_id
          (update_user db user_id name email phone age false).db
          j false).result =
        (db.rows.map (fun r =>
            if r.id = user_id then
              (⟨r.id, name, email, phone, age, r.date_created⟩ : UserRecord)
            else r)).find? (fun r => r.id = j) := rfl
    rw [e2, find?_map_id_preserving _ hg]
    have e3 : (get_user_by_id db j false).result =
        db.rows.find? (fun r => r.id = j) := rfl
    rw [e3]
    cases hf : db.rows.find? (fun r => r.id = j) with
    | none => rfl
    | some r1 =>
      have hr1 : r1.id = j := by
        have := List.find?_some hf
        simpa using this
      simp only [Option.map_some']
      rw [if_neg (by rw [hr1]; exact hj)]

/-- Witness for C4 at a concrete two-record store. -/
theorem update_frame_witness :
    (update_user ⟨[⟨1, "Ann", "a@b.com", "555", 30, some "t1"⟩,
        ⟨2, "Bob", "b@c.org", "777", 40, some "t2"⟩], 3⟩ 1
        "Cyn" "c@d.net" "999" 50 false).result = true ∧
    (get_user_by_id (update_user ⟨[⟨1, "Ann", "a@b.com", "555", 30, some "t1"⟩,
        ⟨2, "Bob", "b@c.org", "777", 40, some "t2"⟩], 3⟩ 1
        "Cyn" "c@d.net" "999" 50 false).db 1 false).result =
      some ⟨1, "Cyn", "c@d.net", "999", 50, some "t1"⟩ ∧
    ∀ j, j ≠ 1 →
      (get_user_by_id (update_user ⟨[⟨1, "Ann", "a@b.com", "555", 30, some "t1"⟩,
          ⟨2, "Bob", "b@c.org", "777", 40, some "t2"⟩], 3⟩ 1
          "Cyn" "c@d.net" "999" 50 false).db j false).result =
        (get_user_by_id ⟨[⟨1, "Ann", "a@b.com", "555", 30, some "t1"⟩,
          ⟨2, "Bob", "b@c.org", "777", 40, some "t2"⟩], 3⟩ j false).result :=
  update_frame ⟨[⟨1, "Ann", "a@b.com", "555", 30, some "t1"⟩,
      ⟨2, "Bob", "b@c.org", "777", 40, some "t2"⟩], 3⟩ 1
    "Cyn" "c@d.net" "999" 50 ⟨1, "Ann", "a@b.com", "555", 30, some "t1"⟩
    (by decide)

/-- C5: a successful insert assigns an id strictly greater than the id
of every row of the store, sets a non-null `date_created`, reports
success, and the new record is the head of the id-descending sequence
returned by `view_all_users`, which is sorted by id descending. -/
theorem insert_fresh_id_first (db : DB) (name email phone : String)
    (age : Int) (now : String) (hWF : db.WF) :
    (insert_user db name email phone age now false).result = true ∧
    (∀ r ∈ db.rows, r.id < db.nextId) ∧
    (⟨db.nextId, name, email, phone, age, some now⟩ :
        UserRecord).date_created ≠ none ∧
    (view_all_users (insert_user db name email phone age now false).db
        false).result.head? =
      some ⟨db.nextId, name, email, phone, age, some now⟩ ∧
    (view_all_users (insert_user db name email phone age now false).db
        false).result.Pairwise (fun a b => b.id ≤ a.id) := by
  refine ⟨rfl, hWF.1, by simp, ?_, ?_⟩
  · have e1 : (view_all_users (insert_user db name email phone age now false).db
          false).result =
        sortByIdDesc (db.rows ++
          ([⟨db.nextId, name, email, phone, age, some now⟩] :
            List UserRecord)) := rfl
    rw [e1]
    exact sortByIdDesc_append_singleton_head db.rows
      ⟨db.nextId, name, email, phone, age, some now⟩ (fun x hx => hWF.1 x hx)
  · exact sortByIdDesc_pairwise _

/-- Witness for C5 at a concrete one-record store. -/
theorem insert_fresh_id_first_witness :
    (insert_user ⟨[⟨1, "Ann", "a@b.com", "555", 30, some "t1"⟩], 2⟩
        "Bob" "b@c.org" "777" 40 "t2" false).result = true ∧
    (∀ r ∈ (⟨[⟨1, "Ann", "a@b.com", "555", 30, some "t1"⟩], 2⟩ : DB).rows,
      r.id < 2) ∧
    (⟨2, "Bob", "b@c.org", "777", 40, some "t2"⟩ :
        UserRecord).date_created ≠ none ∧
    (view_all_users (insert_user
        ⟨[⟨1, "Ann", "a@b.com", "555", 30, some "t1"⟩], 2⟩
        "Bob" "b@c.org" "777" 40 "t2" false).db false).result.head? =
      some ⟨2, "Bob", "b@c.org", "777", 40, some "t2"⟩ ∧
    (view_all_users (insert_user
        ⟨[⟨1, "Ann", "a@b.com", "555", 30, some "t1"⟩], 2⟩
        "Bob" "b@c.org" "777" 40 "t2" false).db false).result.Pairwise
      (fun a b => b.id ≤ a.id) :=
  insert_fresh_id_first ⟨[⟨1, "Ann", "a@b.com", "555", 30, some "t1"⟩], 2⟩
    "Bob" "b@c.org" "777" 40 "t2"
    ⟨by decide, by decide⟩

/-- C6 counterexample: on the path where the statement raises, each
store operation returns from its `except` block without reaching
`conn.close()`, so the connection acquired at the start is not
released — refuting the claim that every exit path releases it. -/
theorem conn_release_counterexample :
    (insert_user ⟨[], 1⟩ "Ann" "a@b.com" "555" 30 "t" true).connReleased
        = false ∧
    (view_all_users ⟨[], 1⟩ true).connReleased = false ∧
    (get_user_by_id ⟨[], 1⟩ 1 true).connReleased = false ∧
    (get_user_ids ⟨[], 1⟩ true).connReleased = false ∧
    (update_user ⟨[], 1⟩ 1 "Ann" "a@b.com" "555" 30 true).connReleased
        = false ∧
    (delete_user ⟨[], 1⟩ 1 true).connReleased = false :=
  ⟨rfl, rfl, rfl, rfl, rfl, rfl⟩

/-- C6 amended: every store operation releases its connection on the
non-raising exit path; on the path where the statement raises, the
`except` handler returns without releasing it. -/
theorem conn_release_paths (db : DB) (user_id : Nat)
    (name email phone : String) (age : Int) (now : String) :
    (insert_user db name email phone age now false).connReleased = true ∧
    (view_all_users db false).connReleased = true ∧
    (get_user_by_id db user_id false).connReleased = true ∧
    (get_user_ids db false).connReleased = true ∧
    (update_user db user_id name email phone age false).connReleased = true ∧
    (delete_user db user_id false).connReleased = true ∧
    (insert_user db name email phone age now true).connReleased = false ∧
    (view_all_users db true).connReleased = false ∧
    (get_user_by_id db user_id true).connReleased = false ∧
    (get_user_ids db true).connReleased = false ∧
    (update_user db user_id name email phone age true).connReleased = false ∧
    (delete_user db user_id true).connReleased = false :=
  ⟨rfl, rfl, rfl, rfl, rfl, rfl, rfl, rfl, rfl, rfl, rfl, rfl⟩

/-- C7: when the statement of a store operation raises, the exception
is caught at the store boundary and converted to `False` for
insert/update/delete, an empty sequence for `view_all_users` and
`get_user_ids`, and `None` for `get_user_by_id`; the operations are
total functions, so no exception propagates to the caller. -/
theorem store_errors_converted (db : DB) (user_id : Nat)
    (name email phone : String) (age : Int) (now : String) :
    (insert_user db name email phone age now true).result = false ∧
    (update_user db user_id name email phone age true).result = false ∧
    (delete_user db user_id true).result = false ∧
    (view_all_users db true).result = [] ∧
    (get_user_ids db true).result = [] ∧
    (get_user_by_id db user_id true).result = none :=
  ⟨rfl, rfl, rfl, rfl, rfl, rfl⟩

/-- C8: for a store holding N records with N ≥ 1, the CSV export
produces one header line in the fixed column order
`id,name,email,phone,age,date_created` followed by exactly N data
lines. -/
theorem csv_export_shape (db : DB) (n : Nat) (hn : db.rows.length = n)
    (h1 : 1 ≤ n) :
    ∃ ls, export_to_csv db false = some ls ∧ ls.length = n + 1 ∧
      ls.head? = some csv_header := by
  have hlen : (sortByIdDesc db.rows).length = n := by
    rw [sortByIdDesc_length, hn]
  have hne : (sortByIdDesc db.rows).isEmpty = false := by
    cases hs : sortByIdDesc db.rows with
    | nil => rw [hs] at hlen; simp at hlen; omega
    | cons x xs => rfl
  refine ⟨csv_header :: (sortByIdDesc db.rows).map record_to_csv_row, ?_, ?_, rfl⟩
  · have e1 : export_to_csv db false =
        if (sortByIdDesc db.rows).isEmpty then none
        else some (csv_header :: (sortByIdDesc db.rows).map record_to_csv_row) :=
      rfl
    rw [e1, hne]
    rfl
  · simp only [List.length_cons, List.length_map, hlen]

/-- Witness for C8 at a concrete one-record store. -/
theorem csv_export_shape_witness :
    ∃ ls, export_to_csv ⟨[⟨1, "Ann", "a@b.com", "555", 30, some "t"⟩], 2⟩
        false = some ls ∧ ls.length = 1 + 1 ∧ ls.head? = some csv_header :=
  csv_export_shape ⟨[⟨1, "Ann", "a@b.com", "555", 30, some "t"⟩], 2⟩ 1
    (by decide) (by decide)

/-- C9: `get_user_by_id` returns `None` both when no row has the given
id and when the statement raises, so the two outcomes are
indistinguishable to the caller. -/
theorem getById_notfound_eq_storage_error (db : DB) (user_id : Nat)
    (h : ∀ r ∈ db.rows, r.id ≠ user_id) :
    (get_user_by_id db user_id false).result = none ∧
    (get_user_by_id db user_id true).result = none ∧
    (get_user_by_id db user_id false).result =
      (get_user_by_id db user_id true).result := by
  have h1 : (get_user_by_id db user_id false).result = none := by
    have e1 : (get_user_by_id db user_id false).result =
        db.rows.find? (fun r => r.id = user_id) := rfl
    rw [e1]
    exact List.find?_eq_none.mpr (fun x hx => by simp [h x hx])
  exact ⟨h1, rfl, by rw [h1]; rfl⟩

/-- Witness for C9 at a concrete store and missing id. -/
theorem getById_notfound_eq_storage_error_witness :
    (get_user_by_id ⟨[⟨1, "Ann", "a@b.com", "555", 30, some "t"⟩], 2⟩ 9
        false).result = none ∧
    (get_user_by_id ⟨[⟨1, "Ann", "a@b.com", "555", 30, some "t"⟩], 2⟩ 9
        true).result = none ∧
    (get_user_by_id ⟨[⟨1, "Ann", "a@b.com", "555", 30, some "t"⟩], 2⟩ 9
        false).result =
      (get_user_by_id ⟨[⟨1, "Ann", "a@b.com", "555", 30, some "t"⟩], 2⟩ 9
        true).result :=
  getById_notfound_eq_storage_error
    ⟨[⟨1, "Ann", "a@b.com", "555", 30, some "t"⟩], 2⟩ 9 (by decide)

/-- C10: on an empty table the export button produces no CSV at all
(`none`, only an informational message), not a header-only file. -/
theorem export_empty_table_no_csv (db : DB) (h : db.rows = []) :
    export_to_csv db false = none := by
  have e1 : export_to_csv db false =
      if (sortByIdDesc db.rows).isEmpty then none
      else some (csv_header :: (sortByIdDesc db.rows).map record_to_csv_row) :=
    rfl
  rw [e1, h]
  rfl

/-- Witness for C10 at the freshly initialized store. -/
theorem export_empty_table_no_csv_witness :
    export_to_csv ⟨[], 1⟩ false = none :=
  export_empty_table_no_csv ⟨[], 1⟩ rfl

/-- C3 counterexample: a whitespace-only name is empty after trimming,
yet both form handlers invoke the store operation for it, because the
code tests `not name` (exact emptiness) rather than emptiness after
trimming. -/
theorem validation_trim_counterexample :
    spec_rejects " " "a@b.com" "555" ∧
    add_user_form_outcome " " "a@b.com" "555" = FormOutcome.storeInvoked ∧
    update_user_form_outcome " " "a@b.com" "555" = FormOutcome.storeInvoked := by
  refine ⟨?_, ?_, ?_⟩ <;> decide

/-- C3 amended: a create or update request is rejected with a
validation failure and no store call if and only if name, email, or
phone is the empty string (no whitespace trimming) or the email does
not contain an "@" character; otherwise the store operation is
invoked. -/
theorem validation_exact_characterization (name email phone : String) :
    (add_user_form_outcome name email phone = FormOutcome.validationError ↔
      (name = "" ∨ email = "" ∨ phone = "" ∨ '@' ∉ email.data)) ∧
    (update_user_form_outcome name email phone = FormOutcome.validationError ↔
      (name = "" ∨ email = "" ∨ phone = "" ∨ '@' ∉ email.data)) ∧
    (add_user_form_outcome name email phone = FormOutcome.storeInvoked ↔
      ¬(name = "" ∨ email = "" ∨ phone = "" ∨ '@' ∉ email.data)) ∧
    (update_user_form_outcome name email phone = FormOutcome.storeInvoked ↔
      ¬(name = "" ∨ email = "" ∨ phone = "" ∨ '@' ∉ email.data)) := by
  unfold add_user_form_outcome update_user_form_outcome
  by_cases h1 : name = "" ∨ email = "" ∨ phone = ""
  · simp only [if_pos h1]
    refine ⟨?_, ?_, ?_, ?_⟩ <;> simp <;> tauto
  · simp only [if_neg h1]
    by_cases h2 : '@' ∈ email.data
    · rw [if_neg (by simpa using h2)]
      refine ⟨?_, ?_, ?_, ?_⟩ <;> simp <;> tauto
    · rw [if_pos (by simpa using h2)]
      refine ⟨?_, ?_, ?_, ?_⟩ <;> simp <;> tauto
